import Mathlib

/-
Verification of the goes event-store client engine against its design
specification.  The repository ships a single example program
(examples/read-write-events/main.go) that exercises the engine; the engine
itself (Client, StreamReader, StreamWriter, ToEventData, the error taxonomy)
is the library the example imports.  The engine is therefore modelled here
from the specification, while the example's enumeration loop and its error
dispatch are embedded from main.go.
-/

namespace Goes

/-- Modelled from the spec: the closed Error Taxonomy of classified outcomes
(section 4.5) together with the transport-level `*url.Error` that the example's
switch statement in main.go handles alongside `TemporarilyUnavailableError`.
`urlError` stands for TransportError, `notFound` for StreamDoesNotExistError /
NotFoundError, `concurrency` for ConcurrencyError, `decoding` for a failed
deserialization. -/
inductive GoesError where
  | urlError
  | temporarilyUnavailable
  | notFound
  | unauthorized
  | noMoreEvents
  | concurrency
  | decoding
deriving DecidableEq

/-- Modelled from the spec: the universe of typed values the example program
serializes — a `FooEvent` struct (three fields, as declared in main.go) and a
string-keyed map used for metadata. -/
inductive Value where
  | fooEvent (fooField barField : String) (bazField : Int) : Value
  | strMap (entries : List (String × String)) : Value
deriving DecidableEq

/-- Modelled from the spec: the run-time shape (type) of a value, the
information the JSON decoder checks a byte payload against. -/
inductive Shape where
  | fooEvent
  | strMap
deriving DecidableEq

/-- The run-time shape of a value. -/
def shapeOf : Value → Shape
  | .fooEvent _ _ _ => .fooEvent
  | .strMap _ => .strMap

/-- The zero value of a shape: what decoding absent bytes into a receiver of
that shape produces. -/
def emptyOf : Shape → Value
  | .fooEvent => .fooEvent "" "" 0
  | .strMap => .strMap []

/-- Modelled from the spec: the concrete run-time type name of a payload,
as produced by reflection (section 4.1: if `type` is empty, derive it from
the concrete run-time type name of the payload). -/
def typeName : Shape → String
  | .fooEvent => "FooEvent"
  | .strMap => "map"

/-- Opaque serialized bytes: `none` models absent / empty bytes. -/
abbrev Bytes := Option Value

/-- Modelled from the spec: the serialization collaborator's encoder for a
payload value (section 6). Encoding is injective on the abstract value
domain. -/
def encode (v : Value) : Bytes := some v

/-- Modelled from the spec: encoding of a possibly absent metadata value;
absence encodes to absent bytes. -/
def encodeMeta (m : Option Value) : Bytes := m

/-- Modelled from the spec: the serialization collaborator's decoder.
Decoding absent bytes into a receiver yields that receiver's empty value
(absence round-trips as an empty value, not an error); decoding present bytes
succeeds exactly when their shape matches the receiver's shape, and fails
with a DecodingError otherwise. -/
def decode (b : Bytes) (target : Shape) : Except GoesError Value :=
  match b with
  | none => .ok (emptyOf target)
  | some v => if shapeOf v = target then .ok v else .error .decoding

/-- Byte content is shape-compatible with a receiver shape when decoding it
into that shape succeeds: absent bytes are compatible with every shape, and
present bytes only with their own shape. -/
def shapeCompatible : Bytes → Shape → Bool
  | none, _ => true
  | some v, t => shapeOf v = t

/-- Modelled from the spec: the Event Envelope wire shape (section 3) —
identity, type tag, payload bytes, metadata bytes. The store-assigned
version is tracked by stream position in the store model. -/
structure Envelope where
  eventID : String
  eventType : String
  data : Bytes
  metaData : Bytes
deriving DecidableEq

/-- Modelled from the spec: the identifier generator (section 6), producing a
distinct non-empty identifier for each fresh seed. -/
def NewUUID (seed : Nat) : String := String.mk (List.replicate (seed + 1) 'u')

/-- Modelled from the spec: envelope construction `ToEventData(id, type,
payload, metadata)` (section 4.1). An empty id is replaced by a freshly
generated identifier; an empty type tag is derived from the payload's
run-time type name; metadata may be absent. Pure value construction — no
network I/O. -/
def ToEventData (seed : Nat) (id ty : String) (payload : Value)
    (meta : Option Value) : Envelope :=
  { eventID := if id = "" then NewUUID seed else id
    eventType := if ty = "" then typeName (shapeOf payload) else ty
    data := encode payload
    metaData := encodeMeta meta }

/-- Modelled from the spec: the store's state — a map from stream names to
streams; a name mapped to `none` is a stream that does not exist. -/
abbrev Store := String → Option (List Envelope)

/-- The envelopes of a stream; a nonexistent stream reads as empty. -/
def streamOf (st : Store) (name : String) : List Envelope := (st name).getD []

/-- Modelled from the spec: a stream's current head version — the number of
envelopes appended so far (the spec's concurrency scenario: after one
unconditional append the head is 1). -/
def headVersion (st : Store) (name : String) : Nat := (streamOf st name).length

/-- Replace one stream's contents in the store. -/
def writeStream (st : Store) (name : String) (es : List Envelope) : Store :=
  fun m => if m = name then some es else st m

/-- Modelled from the spec: the Stream Writer's `Append(expectedVersion,
envelopes...)` (section 4.3), returning the classified outcome and the store
state after the call. With no expected version the batch is appended
unconditionally, creating the stream if it does not exist; with an exact
expected version the batch is appended only when the current head equals it,
and otherwise the call fails with a ConcurrencyError and the store is
untouched (all-or-nothing). -/
def Append (st : Store) (name : String) (expected : Option Nat)
    (envs : List Envelope) : Except GoesError Unit × Store :=
  match expected with
  | none => (.ok (), writeStream st name (streamOf st name ++ envs))
  | some v =>
    if headVersion st name = v then
      (.ok (), writeStream st name (streamOf st name ++ envs))
    else
      (.error .concurrency, st)

/-- Modelled from the spec: a Stream Reader's instance state (section 4.2) —
the stream it is bound to, the cursor `nextVersion`, and the staged result of
the most recent advance: either a staged envelope or a staged classified
error. -/
structure StreamReader where
  streamName : String
  nextVersion : Nat
  stagedEvent : Option Envelope
  stagedErr : Option GoesError
deriving DecidableEq

/-- Modelled from the spec: `NewStreamReader` binds a fresh cursor at the
default starting version 0 with nothing staged; construction performs no
I/O. -/
def NewStreamReader (name : String) : StreamReader :=
  { streamName := name, nextVersion := 0, stagedEvent := none, stagedErr := none }

/-- Modelled from the spec: the Reader's `Next()` / advance step (section
4.2) applied to the transport's response for the current cursor position.
It always returns `true` as its continuation signal; on a successful
response it stages the envelope and increments the cursor by one; on a
classified failure it stages the error and leaves the cursor unchanged. -/
def StreamReader.Next (r : StreamReader) (resp : Except GoesError Envelope) :
    Bool × StreamReader :=
  match resp with
  | .ok e =>
    (true, { r with stagedEvent := some e, stagedErr := none,
                    nextVersion := r.nextVersion + 1 })
  | .error err =>
    (true, { r with stagedEvent := none, stagedErr := some err })

/-- Modelled from the spec: the Reader's error channel `Err()` — the
classified error staged by the most recent advance, or none. -/
def StreamReader.Err (r : StreamReader) : Option GoesError := r.stagedErr

/-- Modelled from the spec: the Transport Port's versioned read
`readAt(streamName, version)` (section 6) against the store model — a
nonexistent stream yields NotFoundError, a position at or past the head
yields NoMoreEventsError, and otherwise the envelope at that position is
returned. -/
def readAt (st : Store) (name : String) (v : Nat) : Except GoesError Envelope :=
  match st name with
  | none => .error .notFound
  | some es =>
    match es[v]? with
    | some e => .ok e
    | none => .error .noMoreEvents

/-- One advance of a Reader against the store: issue the read request for
the current `nextVersion` and feed the response to `Next`. -/
def StreamReader.nextFrom (r : StreamReader) (st : Store) : Bool × StreamReader :=
  r.Next (readAt st r.streamName r.nextVersion)

/-- Iterated advance against a fixed store. -/
def advanceN (st : Store) : Nat → StreamReader → StreamReader
  | 0, r => r
  | n + 1, r => advanceN st n (r.nextFrom st).2

/-- Modelled from the spec: decoding a staged envelope's payload and
metadata into caller-supplied receivers of the given shapes; the first
shape-incompatible component fails the whole call with a DecodingError. -/
def scanEnvelope (e : Envelope) (pt mt : Shape) : Except GoesError (Value × Value) :=
  match decode e.data pt with
  | .error err => .error err
  | .ok pv =>
    match decode e.metaData mt with
    | .error err => .error err
    | .ok mv => .ok (pv, mv)

/-- Modelled from the spec: the Reader's `Scan(payloadTarget, metaTarget)` /
`deserializeInto` (section 4.2). It is callable — returns a result at all —
only after a successful advance with no pending error and a staged envelope;
the result then decodes the staged envelope. The Reader's state (in
particular its cursor) is not modified. -/
def StreamReader.Scan (r : StreamReader) (pt mt : Shape) :
    Option (Except GoesError (Value × Value)) :=
  match r.stagedErr, r.stagedEvent with
  | none, some e => some (scanEnvelope e pt mt)
  | _, _ => none

/-- The outcome of one iteration of the enumeration loop in `readEvents`
(main.go lines 71-149): the loop guard turned false, a return to the caller
(the NoMoreEventsError branch), a `log.Fatal` terminating the process, a
sleep of the given number of seconds before re-entering the loop with the
reader in the given state, or a successfully scanned and logged event. -/
inductive IterResult where
  | guardExit
  | normalReturn
  | fatalExit
  | sleepRetry (seconds : Nat) (r : StreamReader)
  | handledEvent (r : StreamReader)
deriving DecidableEq

/-- One iteration of the `for reader.Next()` loop of `readEvents` in main.go,
given the transport response for the current cursor position: call `Next`,
check the guard, then dispatch on `Err()` exactly as the example's switch
statement does — `*url.Error` and `TemporarilyUnavailableError` sleep 30
seconds and retry, `NotFoundError` sleeps 10 seconds and retries,
`UnauthorizedError` and the default branch call `log.Fatal`,
`NoMoreEventsError` returns, and with no error the event is scanned into a
`FooEvent` and a string map, `log.Fatal` on a scan error. -/
def readEventsIter (r : StreamReader) (resp : Except GoesError Envelope) :
    IterResult :=
  match r.Next resp with
  | (false, _) => .guardExit
  | (true, r1) =>
    match r1.Err with
    | some e =>
      match e with
      | .urlError => .sleepRetry 30 r1
      | .temporarilyUnavailable => .sleepRetry 30 r1
      | .notFound => .sleepRetry 10 r1
      | .unauthorized => .fatalExit
      | .noMoreEvents => .normalReturn
      | _ => .fatalExit
    | none =>
      match r1.Scan Shape.fooEvent Shape.strMap with
      | some (.ok _) => .handledEvent r1
      | _ => .fatalExit

/-- How one run of the `readEvents` enumeration loop ends. -/
inductive LoopExit where
  | normal
  | fatal
  | guardFalse
  | outOfFuel
deriving DecidableEq

/-- The `readEvents` enumeration loop run for at most `fuel` iterations
against an oracle giving the transport response of each successive request
(the environment may answer differently at each step). -/
def readEventsRun (oracle : Nat → Except GoesError Envelope) :
    Nat → Nat → StreamReader → LoopExit
  | 0, _, _ => .outOfFuel
  | fuel + 1, i, r =>
    match readEventsIter r (oracle i) with
    | .guardExit => .guardFalse
    | .normalReturn => .normal
    | .fatalExit => .fatal
    | .sleepRetry _ r1 => readEventsRun oracle fuel (i + 1) r1
    | .handledEvent r1 => readEventsRun oracle fuel (i + 1) r1

/-- A transport oracle that always answers NoMoreEvents. -/
def demoOracle : Nat → Except GoesError Envelope := fun _ => .error .noMoreEvents

/-- A concrete payload, as built in `writeEvents` of main.go. -/
def demoPayload : Value := Value.fooEvent "Lorem Ipsum" "Dolor Sit Amet" 42

/-- A concrete metadata map, as built in `writeEvents` of main.go. -/
def demoMeta : Value := Value.strMap [("Foo", "consectetur adipiscing elit")]

/-- A concrete envelope with explicit id and type, as in main.go. -/
def demoEnv : Envelope := ToEventData 0 (NewUUID 7) "FooEvent" demoPayload (some demoMeta)

/-- The empty store: no stream exists yet. -/
def emptyStore : Store := fun _ => none

/-- The store after one unconditional append of one envelope to
"foostream" (the spec scenario's first step: the head becomes 1). -/
def demoSt1 : Store := (Append emptyStore "foostream" none [demoEnv]).2

/-- A reader on "foostream" whose cursor sits at the head of `demoSt1`. -/
def demoReaderAtHead : StreamReader :=
  { streamName := "foostream", nextVersion := 1, stagedEvent := none, stagedErr := none }

/-- A reader that has just delivered `demoEnv` successfully: the envelope is
staged, no error is pending, and the cursor has moved to 1. -/
def demoReaderStaged : StreamReader :=
  { streamName := "foostream", nextVersion := 1, stagedEvent := some demoEnv,
    stagedErr := none }

theorem NewUUID_ne_empty (seed : Nat) : NewUUID seed ≠ "" := by
  intro h
  have hd := congrArg String.data h
  simp [NewUUID] at hd

theorem NewUUID_injective (s1 s2 : Nat) (h : s1 ≠ s2) : NewUUID s1 ≠ NewUUID s2 := by
  intro he
  have hd := congrArg String.data he
  simp [NewUUID] at hd
  exact h hd

theorem streamOf_writeStream (st : Store) (name : String) (es : List Envelope) :
    streamOf (writeStream st name es) name = es := by
  simp [streamOf, writeStream]

/-- C1: append with an exact expected version `v` succeeds if and only if the
stream's current head version equals `v`; when the head does not equal `v`
the call fails with a ConcurrencyConflict error and the store — hence the
stream's head — is unchanged. -/
theorem C1_append_expected_version (st : Store) (name : String) (v : Nat)
    (envs : List Envelope) :
    ((Append st name (some v) envs).1 = .ok () ↔ headVersion st name = v) ∧
    (headVersion st name ≠ v →
      Append st name (some v) envs = (.error .concurrency, st)) := by
  by_cases hv : headVersion st name = v
  · exact ⟨by simp [Append, hv], fun h => absurd hv h⟩
  · exact ⟨by simp [Append, hv], fun _ => by simp [Append, hv]⟩

/-- C1 witness: the spec's scenario — after one unconditional append of one
envelope the head of "foostream" is 1, and a subsequent append with expected
version 0 fails with ConcurrencyConflict leaving the store unchanged. -/
theorem C1_append_expected_version_witness :
    headVersion demoSt1 "foostream" = 1 ∧
    Append demoSt1 "foostream" (some 0) [demoEnv] = (.error .concurrency, demoSt1) :=
  ⟨by decide, (C1_append_expected_version demoSt1 "foostream" 0 [demoEnv]).2 (by decide)⟩

/-- C3: a batch append is atomic — on success the stream afterwards is the
old stream followed by every submitted envelope in the given order, and on
any classified error the store (hence the stream) is exactly as before, so
none of the new envelopes is present. -/
theorem C3_append_atomic (st : Store) (name : String) (expected : Option Nat)
    (envs : List Envelope) :
    ((Append st name expected envs).1 = .ok () →
      streamOf (Append st name expected envs).2 name = streamOf st name ++ envs) ∧
    (∀ e, (Append st name expected envs).1 = .error e →
      (Append st name expected envs).2 = st) := by
  cases expected with
  | none =>
    exact ⟨fun _ => streamOf_writeStream st name _, fun e h => by simp [Append] at h⟩
  | some v =>
    by_cases hv : headVersion st name = v
    · refine ⟨fun _ => ?_, fun e h => ?_⟩
      · simp only [Append, hv, if_pos]
        exact streamOf_writeStream st name _
      · simp [Append, hv] at h
    · refine ⟨fun h => ?_, fun e h => ?_⟩
      · simp [Append, hv] at h
      · simp [Append, hv]

/-- C3 witness: at the conflicting append of the spec's scenario, the store
after the failed call equals the store before it. -/
theorem C3_append_atomic_witness :
    (Append demoSt1 "foostream" (some 0) [demoEnv]).2 = demoSt1 :=
  (C3_append_atomic demoSt1 "foostream" (some 0) [demoEnv]).2 .concurrency rfl

/-- C8: append with no expected version always succeeds, appends the
envelopes at the head regardless of the current head version, and if the
stream did not exist it is created transparently by that first append, with
no explicit create step. -/
theorem C8_unconditional_append (st : Store) (name : String) (envs : List Envelope) :
    (Append st name none envs).1 = .ok () ∧
    streamOf (Append st name none envs).2 name = streamOf st name ++ envs ∧
    (st name = none → (Append st name none envs).2 name = some envs) := by
  refine ⟨rfl, streamOf_writeStream st name _, fun h => ?_⟩
  simp [Append, writeStream, streamOf, h]

/-- C8 witness: appending to the empty store creates "foostream" holding
exactly the appended envelope. -/
theorem C8_unconditional_append_witness :
    (Append emptyStore "foostream" none [demoEnv]).2 "foostream" = some [demoEnv] :=
  (C8_unconditional_append emptyStore "foostream" [demoEnv]).2.2 rfl

/-- C2: each advance issues a read request for the current `nextVersion`; on
success it stages the returned envelope and increments the cursor by exactly
one; on failure it stages the classified error and leaves the cursor
unchanged, so the failed position is the one read by the next advance; the
cursor is never decremented. -/
theorem C2_advance_cursor (r : StreamReader) (st : Store) (e : Envelope)
    (err : GoesError) :
    r.nextFrom st = r.Next (readAt st r.streamName r.nextVersion) ∧
    r.Next (.ok e) = (true, { r with stagedEvent := some e, stagedErr := none,
                                     nextVersion := r.nextVersion + 1 }) ∧
    r.Next (.error err) = (true, { r with stagedEvent := none,
                                          stagedErr := some err }) ∧
    (∀ resp, r.nextVersion ≤ (r.Next resp).2.nextVersion) := by
  refine ⟨rfl, rfl, rfl, fun resp => ?_⟩
  cases resp <;> simp [StreamReader.Next]

/-- C2 witness: a concrete failed advance stages the error and leaves the
cursor at its previous position. -/
theorem C2_advance_cursor_witness :
    demoReaderAtHead.Next (.error .noMoreEvents) =
      (true, { demoReaderAtHead with stagedEvent := none,
                                     stagedErr := some .noMoreEvents }) :=
  (C2_advance_cursor demoReaderAtHead emptyStore demoEnv .noMoreEvents).2.2.1

/-- C9: the boolean returned by `Next` is `true` for every reader state and
every transport response — it carries no success or failure information —
while the per-step outcome is observable through the `Err` channel, which
holds exactly the error of a failed response and none after a success. -/
theorem C9_next_always_true (r : StreamReader) (resp : Except GoesError Envelope) :
    (r.Next resp).1 = true ∧
    (r.Next resp).2.Err = (match resp with | .ok _ => none | .error e => some e) := by
  cases resp <;> exact ⟨rfl, rfl⟩

/-- C9 witness: `Next` returns true even when the response is a fatal
classified error. -/
theorem C9_next_always_true_witness :
    (demoReaderAtHead.Next (.error .unauthorized)).1 = true :=
  (C9_next_always_true demoReaderAtHead (.error .unauthorized)).1

/-- The reader state after an advance past the head: nothing staged but the
NoMoreEvents error, cursor and stream binding untouched. -/
def terminalReader (r : StreamReader) : StreamReader :=
  { r with stagedEvent := none, stagedErr := some .noMoreEvents }

/-- C4: once a reader's cursor is at or past the stream head, every advance
(and every repeated advance thereafter) stages the NoMoreEvents error and
leaves the cursor where it was — a stable terminal state with no decrement. -/
theorem C4_no_more_events (st : Store) (r : StreamReader) (es : List Envelope)
    (hst : st r.streamName = some es) (hpast : es.length ≤ r.nextVersion) :
    ∀ n, 1 ≤ n →
      (advanceN st n r).stagedErr = some .noMoreEvents ∧
      (advanceN st n r).nextVersion = r.nextVersion := by
  intro n hn
  obtain ⟨k, rfl⟩ : ∃ k, n = k + 1 := ⟨n - 1, by omega⟩
  have hread : readAt st r.streamName r.nextVersion = .error .noMoreEvents := by
    simp [readAt, hst, List.getElem?_eq_none hpast]
  have hstep : (r.nextFrom st).2 = terminalReader r := by
    simp [StreamReader.nextFrom, hread, StreamReader.Next, terminalReader]
  have hfix : ∀ m, advanceN st m (terminalReader r) = terminalReader r := by
    intro m
    induction m with
    | zero => rfl
    | succ m ih =>
      have hstep1 : ((terminalReader r).nextFrom st).2 = terminalReader r := by
        simp [StreamReader.nextFrom, StreamReader.Next, terminalReader, hread]
      simp [advanceN, hstep1, ih]
  have hall : advanceN st (k + 1) r = terminalReader r := by
    simp [advanceN, hstep, hfix k]
  rw [hall]
  exact ⟨rfl, rfl⟩

/-- C4 witness: with one envelope in "foostream" and a reader at version 1
(the head), two repeated advances leave the reader staged with NoMoreEvents
and the cursor still at 1. -/
theorem C4_no_more_events_witness :
    (advanceN demoSt1 2 demoReaderAtHead).stagedErr = some .noMoreEvents ∧
    (advanceN demoSt1 2 demoReaderAtHead).nextVersion = 1 :=
  C4_no_more_events demoSt1 demoReaderAtHead [demoEnv] rfl (by decide) 2 (by decide)

/-- C5: envelope construction with an empty id carries a freshly generated
non-empty identifier (distinct seeds give distinct identifiers), and with an
empty type tag the envelope's type equals the run-time type name of the
payload; construction is a pure function of its arguments. -/
theorem C5_to_event_data (seed seed2 : Nat) (id ty : String) (p : Value)
    (m : Option Value) :
    (ToEventData seed "" ty p m).eventID = NewUUID seed ∧
    (ToEventData seed "" ty p m).eventID ≠ "" ∧
    (seed ≠ seed2 →
      (ToEventData seed "" ty p m).eventID ≠ (ToEventData seed2 "" ty p m).eventID) ∧
    (ToEventData seed id "" p m).eventType = typeName (shapeOf p) := by
  refine ⟨rfl, NewUUID_ne_empty seed, fun h => ?_, rfl⟩
  exact NewUUID_injective seed seed2 h

/-- C5 witness: two constructions with empty ids from distinct seeds get
distinct non-empty ids, and a `FooEvent` payload with an empty type tag gets
the type "FooEvent". -/
theorem C5_to_event_data_witness :
    (ToEventData 1 "" "" demoPayload none).eventID ≠
      (ToEventData 2 "" "" demoPayload none).eventID ∧
    (ToEventData 1 "" "" demoPayload none).eventType = "FooEvent" :=
  ⟨(C5_to_event_data 1 2 "x" "" demoPayload none).2.2.1 (by decide),
   (C5_to_event_data 1 2 "" "" demoPayload none).2.2.2⟩

/-- C6: encoding a payload and metadata into an envelope and decoding them
back into receivers of the original types reproduces the original values,
both directly through the codec and through a constructed envelope; absent
metadata round-trips as the empty metadata value, not an error. -/
theorem C6_round_trip (seed : Nat) (id ty : String) (p mv : Value) :
    decode (encode p) (shapeOf p) = .ok p ∧
    decode (encodeMeta (some mv)) (shapeOf mv) = .ok mv ∧
    decode (encodeMeta none) Shape.strMap = .ok (Value.strMap []) ∧
    scanEnvelope (ToEventData seed id ty p (some mv)) (shapeOf p) (shapeOf mv) =
      .ok (p, mv) ∧
    scanEnvelope (ToEventData seed id ty p none) (shapeOf p) Shape.strMap =
      .ok (p, Value.strMap []) := by
  refine ⟨?_, ?_, rfl, ?_, ?_⟩ <;>
    simp [decode, encode, encodeMeta, scanEnvelope, ToEventData, emptyOf]

/-- C6 witness: the example's concrete payload and metadata round-trip. -/
theorem C6_round_trip_witness :
    scanEnvelope (ToEventData 0 "" "" demoPayload (some demoMeta))
      (shapeOf demoPayload) (shapeOf demoMeta) = .ok (demoPayload, demoMeta) :=
  (C6_round_trip 0 "" "" demoPayload demoMeta).2.2.2.1

theorem scanEnvelope_decoding_iff (e : Envelope) (pt mt : Shape) :
    scanEnvelope e pt mt = .error .decoding ↔
    ¬(shapeCompatible e.data pt = true ∧ shapeCompatible e.metaData mt = true) := by
  cases hd : e.data with
  | none =>
    cases hm : e.metaData with
    | none => simp [scanEnvelope, decode, shapeCompatible, hd, hm]
    | some mv =>
      by_cases hms : shapeOf mv = mt <;>
        simp [scanEnvelope, decode, shapeCompatible, hd, hm, hms]
  | some pv =>
    by_cases hps : shapeOf pv = pt
    · cases hm : e.metaData with
      | none => simp [scanEnvelope, decode, shapeCompatible, hd, hm, hps]
      | some mv =>
        by_cases hms : shapeOf mv = mt <;>
          simp [scanEnvelope, decode, shapeCompatible, hd, hm, hps, hms]
    · simp [scanEnvelope, decode, shapeCompatible, hd, hps]

/-- C7: `Scan` yields a result at all exactly when the most recent advance
succeeded (no pending error, an envelope staged); on a staged envelope it
fails with a DecodingError exactly when the staged payload or metadata bytes
are not shape-compatible with the caller-supplied targets; and such a
failure does not poison the cursor — the reader state is untouched, so a
subsequent successful advance still increments the cursor past the offending
event. -/
theorem C7_scan_decoding (r : StreamReader) (pt mt : Shape) :
    ((r.Scan pt mt).isSome ↔ (r.stagedErr = none ∧ r.stagedEvent.isSome)) ∧
    (∀ e, r.stagedErr = none → r.stagedEvent = some e →
      (r.Scan pt mt = some (.error .decoding) ↔
        ¬(shapeCompatible e.data pt = true ∧ shapeCompatible e.metaData mt = true))) ∧
    (∀ e1, r.Scan pt mt = some (.error .decoding) →
      (r.Next (.ok e1)).1 = true ∧
      (r.Next (.ok e1)).2.nextVersion = r.nextVersion + 1) := by
  refine ⟨?_, fun e h1 h2 => ?_, fun e1 _ => ⟨rfl, rfl⟩⟩
  · cases hr : r.stagedErr <;> cases he : r.stagedEvent <;>
      simp [StreamReader.Scan, hr, he]
  · rw [show r.Scan pt mt = some (scanEnvelope e pt mt) by
      simp [StreamReader.Scan, h1, h2]]
    simp [scanEnvelope_decoding_iff]

/-- C7 witness: scanning the staged `FooEvent` envelope into a string-map
payload receiver fails with a DecodingError, and the reader can still
advance, moving its cursor from 1 to 2. -/
theorem C7_scan_decoding_witness :
    demoReaderStaged.Scan Shape.strMap Shape.strMap = some (.error .decoding) ∧
    (demoReaderStaged.Next (.ok demoEnv)).2.nextVersion = 2 := by
  have h1 := ((C7_scan_decoding demoReaderStaged Shape.strMap Shape.strMap).2.1
    demoEnv rfl rfl).mpr (by decide)
  exact ⟨h1, ((C7_scan_decoding demoReaderStaged Shape.strMap Shape.strMap).2.2
    demoEnv h1).2⟩

theorem readEventsIter_ne_guardExit (r : StreamReader)
    (resp : Except GoesError Envelope) : readEventsIter r resp ≠ .guardExit := by
  cases resp with
  | ok e =>
    cases hs : scanEnvelope e Shape.fooEvent Shape.strMap <;>
      simp [readEventsIter, StreamReader.Next, StreamReader.Err,
        StreamReader.Scan, hs]
  | error err =>
    cases err <;> simp [readEventsIter, StreamReader.Next, StreamReader.Err]

theorem readEventsRun_ne_guardFalse (oracle : Nat → Except GoesError Envelope) :
    ∀ fuel i r, readEventsRun oracle fuel i r ≠ .guardFalse := by
  intro fuel
  induction fuel with
  | zero => intro i r; simp [readEventsRun]
  | succ fuel ih =>
    intro i r
    cases hit : readEventsIter r (oracle i) with
    | guardExit => exact absurd hit (readEventsIter_ne_guardExit r (oracle i))
    | normalReturn => simp [readEventsRun, hit]
    | fatalExit => simp [readEventsRun, hit]
    | sleepRetry s r1 => simpa [readEventsRun, hit] using ih (i + 1) r1
    | handledEvent r1 => simpa [readEventsRun, hit] using ih (i + 1) r1

/-- C10: the `readEvents` enumeration loop never exits through its loop
condition; an iteration returns to the caller exactly when the response is
NoMoreEvents; a `*url.Error` or TemporarilyUnavailable response sleeps 30
seconds and a NotFound response sleeps 10 seconds, each re-entering the loop
with the cursor at the same position (no reseek); and Unauthorized or any
error outside the switch's explicit cases terminates the process. -/
theorem C10_read_events_control_flow (r : StreamReader)
    (resp : Except GoesError Envelope) :
    (∀ oracle fuel i r0, readEventsRun oracle fuel i r0 ≠ .guardFalse) ∧
    (readEventsIter r resp = .normalReturn ↔ resp = .error .noMoreEvents) ∧
    readEventsIter r (.error .urlError) =
      .sleepRetry 30 { r with stagedEvent := none, stagedErr := some .urlError } ∧
    readEventsIter r (.error .temporarilyUnavailable) =
      .sleepRetry 30 { r with stagedEvent := none,
                              stagedErr := some .temporarilyUnavailable } ∧
    readEventsIter r (.error .notFound) =
      .sleepRetry 10 { r with stagedEvent := none, stagedErr := some .notFound } ∧
    readEventsIter r (.error .unauthorized) = .fatalExit ∧
    readEventsIter r (.error .concurrency) = .fatalExit ∧
    readEventsIter r (.error .decoding) = .fatalExit := by
  refine ⟨fun oracle => readEventsRun_ne_guardFalse oracle, ?_, rfl, rfl, rfl,
    rfl, rfl, rfl⟩
  constructor
  · intro h
    cases resp with
    | ok e =>
      cases hs : scanEnvelope e Shape.fooEvent Shape.strMap <;>
        simp [readEventsIter, StreamReader.Next, StreamReader.Err,
          StreamReader.Scan, hs] at h
    | error err =>
      cases err <;>
        simp [readEventsIter, StreamReader.Next, StreamReader.Err] at h ⊢
  · rintro rfl
    rfl

/-- C10 witness: a run against an oracle that always answers NoMoreEvents
does not exit through the loop guard, and the NoMoreEvents iteration returns
to the caller. -/
theorem C10_read_events_control_flow_witness :
    readEventsRun demoOracle 3 0 (NewStreamReader "foostream") ≠ .guardFalse ∧
    readEventsIter (NewStreamReader "foostream") (.error .noMoreEvents) =
      .normalReturn :=
  ⟨(C10_read_events_control_flow (NewStreamReader "foostream")
      (.error .noMoreEvents)).1 demoOracle 3 0 (NewStreamReader "foostream"),
   (C10_read_events_control_flow (NewStreamReader "foostream")
      (.error .noMoreEvents)).2.1.mpr rfl⟩

end Goes
